import Mathlib

/-!
Verification of the liblight LED HAL (src/liblight/lights.c).

The development shallowly embeds the C module: the pure translator
functions become Lean functions, the four process-wide led_state
records become an explicit LedStore record threaded through the
handlers, and the device-file writes become a trace of events
(lock, unlock, write) produced next to the returned error code.
The outcome of each individual device-file write is supplied by a
channel oracle mapping a path and a written value to the int result
the C write helper would return (0 on success, a negative errno on
failure); every theorem quantifies over that oracle.
-/

/-- The incoming request, mirroring struct light_state_t of
hardware/lights.h as used by lights.c: a packed color (unsigned int,
0xAARRGGBB), a flashMode (LIGHT_FLASH_NONE = 0, LIGHT_FLASH_TIMED = 1,
anything else unrecognized) and the two flash timings in ms. -/
structure light_state_t where
  color : Nat
  flashMode : Int
  flashOnMS : Int
  flashOffMS : Int

/-- One stored record, mirroring struct led_state of lights.c.  The C
field enabled is an unsigned int that is only ever assigned the result
of a double negation, so it is embedded as a Bool. -/
structure led_state where
  enabled : Bool
  delay_on : Int
  delay_off : Int
deriving DecidableEq

/-- The four process-wide led_state globals of lights.c. -/
structure LedStore where
  battery_red : led_state
  battery_blue : led_state
  notifications_red : led_state
  notifications_blue : led_state
deriving DecidableEq

def LIGHT_FLASH_NONE : Int := 0

def LIGHT_FLASH_TIMED : Int := 1

def RED_LED_DIR : String := "/sys/class/leds/red"

def BLUE_LED_DIR : String := "/sys/class/leds/blue"

def LCD_FILE : String := "/sys/class/backlight/s5p_bl/brightness"

def KEYBOARD_FILE : String := "/sys/devices/platform/s3c-keypad/brightness"

def BUTTONS_FILE : String := "/sys/class/sec/t_key/brightness"

def BRIGHTNESS_FILE : String := "/sys/devices/virtual/sec/t_key/touchleds_voltage"

/-- A value written to a device file: write_str writes a literal
string, write_int writes the decimal rendering of an int. -/
inductive WVal where
  | str : String → WVal
  | int : Int → WVal
deriving DecidableEq

/-- Observable events of one handler call: taking and releasing the
process-wide mutex, and one device-file write. -/
inductive Ev where
  | lock : Ev
  | unlock : Ev
  | wr : String → WVal → Ev
deriving DecidableEq

/-- The device channel oracle: for a path and a written value, the int
result the write helper returns (0 on success, negative on failure). -/
abbrev Chan := String → WVal → Int

/-- rgb_to_brightness of lights.c: mask the color to its low 3 bytes
and take the luma-weighted average (77, 150, 29) shifted down by 8. -/
def rgb_to_brightness (state : light_state_t) : Nat :=
  let color := state.color % 16777216
  (77 * ((color >>> 16) % 256) + 150 * ((color >>> 8) % 256) + 29 * (color % 256)) >>> 8

/-- comp_led_states of lights.c: the red and blue led_state records
computed from one request.  TIMED copies the flash timings into both
delay pairs; NONE and every unrecognized mode (the switch default
falls through to NONE) force both delays to 0.  red.enabled comes from
the second byte (bits 16-23), blue.enabled from the low byte. -/
def comp_led_states (state : light_state_t) : led_state × led_state :=
  let color := state.color
  let delays : Int × Int :=
    if state.flashMode = LIGHT_FLASH_TIMED then (state.flashOnMS, state.flashOffMS)
    else (0, 0)
  ({ enabled := decide ((color >>> 16) % 256 ≠ 0),
     delay_on := delays.1, delay_off := delays.2 },
   { enabled := decide (color % 256 ≠ 0),
     delay_on := delays.1, delay_off := delays.2 })

/-- The arbitration at the top of set_led in lights.c: notifications
wins when enabled, else battery when enabled, else no source. -/
def led_winner (battery notifications : led_state) : Option led_state :=
  if notifications.enabled then some notifications
  else if battery.enabled then some battery
  else none

/-- The sequence of writes set_led emits for the winning state (paths
are dir/file as built by write_df_str and write_df_int). -/
def set_led_writes (dir : String) : Option led_state → List (String × WVal)
  | some st =>
    if 0 < st.delay_on ∧ 0 < st.delay_off then
      [(dir ++ "/trigger", WVal.str "notification"),
       (dir ++ "/brightness", WVal.str "255"),
       (dir ++ "/blink_count", WVal.str "1"),
       (dir ++ "/delay_on", WVal.int st.delay_on),
       (dir ++ "/delay_off", WVal.int st.delay_off)]
    else
      [(dir ++ "/trigger", WVal.str "none"),
       (dir ++ "/brightness", WVal.str "255")]
  | none =>
      [(dir ++ "/trigger", WVal.str "none"),
       (dir ++ "/brightness", WVal.str "0")]

/-- The early-return chain of set_led: each write whose result is
negative returns that result at once and performs no further write;
if no write fails the function returns 0. -/
def run_writes (chan : Chan) : List (String × WVal) → Int × List Ev
  | [] => (0, [])
  | pv :: rest =>
    if chan pv.1 pv.2 < 0 then (chan pv.1 pv.2, [Ev.wr pv.1 pv.2])
    else ((run_writes chan rest).1, Ev.wr pv.1 pv.2 :: (run_writes chan rest).2)

/-- set_led of lights.c: pick the winning state and emit its write
sequence with early return on the first failure. -/
def set_led (chan : Chan) (dir : String) (battery notifications : led_state) : Int × List Ev :=
  run_writes chan (set_led_writes dir (led_winner battery notifications))

/-- set_light_battery of lights.c: under the lock, recompute the two
battery records, drive the red LED, and only when that succeeded the
blue LED; return the last result. -/
def set_light_battery (chan : Chan) (g : LedStore) (state : light_state_t) :
    Int × LedStore × List Ev :=
  let states := comp_led_states state
  let g2 := { g with battery_red := states.1, battery_blue := states.2 }
  let red := set_led chan RED_LED_DIR g2.battery_red g2.notifications_red
  if 0 ≤ red.1 then
    let blue := set_led chan BLUE_LED_DIR g2.battery_blue g2.notifications_blue
    (blue.1, g2, (Ev.lock :: (red.2 ++ blue.2)) ++ [Ev.unlock])
  else
    (red.1, g2, (Ev.lock :: red.2) ++ [Ev.unlock])

/-- set_light_notifications of lights.c, symmetric to the battery
handler but recomputing the two notifications records. -/
def set_light_notifications (chan : Chan) (g : LedStore) (state : light_state_t) :
    Int × LedStore × List Ev :=
  let states := comp_led_states state
  let g2 := { g with notifications_red := states.1, notifications_blue := states.2 }
  let red := set_led chan RED_LED_DIR g2.battery_red g2.notifications_red
  if 0 ≤ red.1 then
    let blue := set_led chan BLUE_LED_DIR g2.battery_blue g2.notifications_blue
    (blue.1, g2, (Ev.lock :: (red.2 ++ blue.2)) ++ [Ev.unlock])
  else
    (red.1, g2, (Ev.lock :: red.2) ++ [Ev.unlock])

/-- set_light_backlight of lights.c: the brightness is computed before
the lock, the single write happens under it. -/
def set_light_backlight (chan : Chan) (g : LedStore) (state : light_state_t) :
    Int × LedStore × List Ev :=
  let brightness := rgb_to_brightness state
  let err := chan LCD_FILE (WVal.int brightness)
  (err, g, [Ev.lock, Ev.wr LCD_FILE (WVal.int brightness), Ev.unlock])

/-- set_light_keyboard of lights.c: control code 1 when any of the low
3 color bytes is set, else 2 (the driver encoding is inverted); one
write under the lock. -/
def set_light_keyboard (chan : Chan) (g : LedStore) (state : light_state_t) :
    Int × LedStore × List Ev :=
  let key_led_control : Int := if state.color % 16777216 ≠ 0 then 1 else 2
  let res := chan KEYBOARD_FILE (WVal.int key_led_control)
  (res, g, [Ev.lock, Ev.wr KEYBOARD_FILE (WVal.int key_led_control), Ev.unlock])

/-- set_light_buttons of lights.c: first the keyboard handler is
invoked (its result discarded), then when the luma brightness is
positive the voltage file is written under the lock (result
discarded), then the 0/1 touch flag is written to the buttons file
under the lock and that result alone is returned. -/
def set_light_buttons (chan : Chan) (g : LedStore) (state : light_state_t) :
    Int × LedStore × List Ev :=
  let kb := set_light_keyboard chan g state
  let touch_led_control : Int := if state.color % 16777216 ≠ 0 then 1 else 0
  let brightness := rgb_to_brightness state
  let voltage_trace : List Ev :=
    if 0 < brightness then
      [Ev.lock, Ev.wr BRIGHTNESS_FILE (WVal.int brightness), Ev.unlock]
    else []
  let res := chan BUTTONS_FILE (WVal.int touch_led_control)
  (res, kb.2.1,
   kb.2.2 ++ voltage_trace ++
     [Ev.lock, Ev.wr BUTTONS_FILE (WVal.int touch_led_control), Ev.unlock])

/-- A trace tail that consists of writes only and closes with the
final unlock. -/
def endsUnlockWrites : List Ev → Bool
  | [Ev.unlock] => true
  | Ev.wr _ _ :: rest => endsUnlockWrites rest
  | _ => false

/-- A whole trace that is one lock, then writes only, then the
matching unlock: the lock is held continuously across every write of
the call. -/
def singleLockSpan : List Ev → Bool
  | Ev.lock :: rest => endsUnlockWrites rest
  | _ => false

/-- Well-nested lock use (never re-locked while held, never released
while free, not held at the end) in which every write happens while
the lock is held.  Weaker than singleLockSpan: the lock may be
released and retaken between writes. -/
def lockedWrites : List Ev → Bool → Bool
  | [], held => !held
  | Ev.lock :: rest, held => !held && lockedWrites rest true
  | Ev.unlock :: rest, held => held && lockedWrites rest false
  | Ev.wr _ _ :: rest, held => held && lockedWrites rest held

/-! ### Helper lemmas -/

theorem run_writes_cons_fail (chan : Chan) (pv : String × WVal)
    (rest : List (String × WVal)) (h : chan pv.1 pv.2 < 0) :
    run_writes chan (pv :: rest) = (chan pv.1 pv.2, [Ev.wr pv.1 pv.2]) := by
  simp [run_writes, h]

theorem run_writes_cons_ok (chan : Chan) (pv : String × WVal)
    (rest : List (String × WVal)) (h : 0 ≤ chan pv.1 pv.2) :
    run_writes chan (pv :: rest) =
      ((run_writes chan rest).1, Ev.wr pv.1 pv.2 :: (run_writes chan rest).2) := by
  simp [run_writes, not_lt.mpr h]

theorem run_writes_only_writes (chan : Chan) (l : List (String × WVal)) :
    ∀ e ∈ (run_writes chan l).2, ∃ p v, e = Ev.wr p v := by
  induction l with
  | nil => simp [run_writes]
  | cons pv rest ih =>
    by_cases h : chan pv.1 pv.2 < 0
    · simp [run_writes, h]
    · simp only [run_writes, if_neg h]
      intro e he
      rcases List.mem_cons.mp he with he | he
      · exact ⟨pv.1, pv.2, he⟩
      · exact ih e he

theorem set_led_trace_writes (chan : Chan) (dir : String) (b n : led_state) :
    ∀ e ∈ (set_led chan dir b n).2, ∃ p v, e = Ev.wr p v :=
  run_writes_only_writes chan _

theorem endsUnlockWrites_append (l : List Ev)
    (h : ∀ e ∈ l, ∃ p v, e = Ev.wr p v) :
    endsUnlockWrites (l ++ [Ev.unlock]) = true := by
  induction l with
  | nil => rfl
  | cons e rest ih =>
    obtain ⟨p, v, rfl⟩ := h e (List.mem_cons_self e rest)
    simp only [List.cons_append, endsUnlockWrites]
    exact ih (fun x hx => h x (List.mem_cons_of_mem _ hx))

theorem singleLockSpan_wrap (l : List Ev)
    (h : ∀ e ∈ l, ∃ p v, e = Ev.wr p v) :
    singleLockSpan ((Ev.lock :: l) ++ [Ev.unlock]) = true := by
  simp only [List.cons_append, singleLockSpan]
  exact endsUnlockWrites_append l h

/-! ### Claims -/

/-- Claim C1: for each physical LED the arbiter picks the
notifications record whenever its enabled flag is set, otherwise the
battery record when that one is enabled, otherwise no source.  The two
records are universally quantified, so the choice is independent of
every delay value. -/
theorem led_winner_priority (battery notifications : led_state) :
    (notifications.enabled = true →
      led_winner battery notifications = some notifications) ∧
    (notifications.enabled = false → battery.enabled = true →
      led_winner battery notifications = some battery) ∧
    (notifications.enabled = false → battery.enabled = false →
      led_winner battery notifications = none) :=
  ⟨fun h => by simp [led_winner, h],
   fun h1 h2 => by simp [led_winner, h1, h2],
   fun h1 h2 => by simp [led_winner, h1, h2]⟩

/-- Claim C1 witness: both sources enabled with different, partly zero
delays; the notifications record wins. -/
theorem led_winner_priority_witness :
    led_winner ⟨true, 5, 0⟩ ⟨true, 7, 9⟩ = some ⟨true, 7, 9⟩ :=
  (led_winner_priority ⟨true, 5, 0⟩ ⟨true, 7, 9⟩).1 rfl

/-- Claim C2: the translator copies the flash timings into both delay
pairs exactly when flashMode is TIMED and forces both pairs to zero
for every other mode; red.enabled holds iff bits 16-23 of the color
are non-zero and blue.enabled iff bits 0-7 are; the enabled flags
depend only on those two bytes, so the green byte never affects them. -/
theorem comp_led_states_translation (state : light_state_t) :
    (state.flashMode = LIGHT_FLASH_TIMED →
      (comp_led_states state).1.delay_on = state.flashOnMS ∧
      (comp_led_states state).1.delay_off = state.flashOffMS ∧
      (comp_led_states state).2.delay_on = state.flashOnMS ∧
      (comp_led_states state).2.delay_off = state.flashOffMS) ∧
    (state.flashMode ≠ LIGHT_FLASH_TIMED →
      (comp_led_states state).1.delay_on = 0 ∧
      (comp_led_states state).1.delay_off = 0 ∧
      (comp_led_states state).2.delay_on = 0 ∧
      (comp_led_states state).2.delay_off = 0) ∧
    ((comp_led_states state).1.enabled = true ↔ (state.color >>> 16) % 256 ≠ 0) ∧
    ((comp_led_states state).2.enabled = true ↔ state.color % 256 ≠ 0) ∧
    (∀ s2 : light_state_t,
      (s2.color >>> 16) % 256 = (state.color >>> 16) % 256 →
      s2.color % 256 = state.color % 256 →
      (comp_led_states s2).1.enabled = (comp_led_states state).1.enabled ∧
      (comp_led_states s2).2.enabled = (comp_led_states state).2.enabled) := by
  refine ⟨fun h => ?_, fun h => ?_, ?_, ?_, fun s2 h1 h2 => ?_⟩
  · simp [comp_led_states, h]
  · simp [comp_led_states, h]
  · simp [comp_led_states]
  · simp [comp_led_states]
  · simp [comp_led_states, h1, h2]

/-- Claim C2 witness: a TIMED request whose color is pure green; the
delays are copied and both enabled flags stay off. -/
theorem comp_led_states_translation_witness :
    ((comp_led_states ⟨0x00FF00, 1, 3, 4⟩).1.delay_on = 3 ∧
     (comp_led_states ⟨0x00FF00, 1, 3, 4⟩).1.delay_off = 4 ∧
     (comp_led_states ⟨0x00FF00, 1, 3, 4⟩).2.delay_on = 3 ∧
     (comp_led_states ⟨0x00FF00, 1, 3, 4⟩).2.delay_off = 4) :=
  (comp_led_states_translation ⟨0x00FF00, 1, 3, 4⟩).1 rfl

/-- Claim C3: rgb_to_brightness realizes the luma formula
(77 R + 150 G + 29 B) / 256 on the three color bytes, ignores every
bit above bit 23, and never exceeds 255. -/
theorem rgb_to_brightness_formula (state : light_state_t) :
    rgb_to_brightness state =
      (77 * ((state.color >>> 16) % 256) + 150 * ((state.color >>> 8) % 256) +
        29 * (state.color % 256)) >>> 8 ∧
    rgb_to_brightness state =
      rgb_to_brightness { state with color := state.color % 16777216 } ∧
    rgb_to_brightness state ≤ 255 := by
  refine ⟨?_, ?_, ?_⟩ <;>
    · unfold rgb_to_brightness
      simp only [Nat.shiftRight_eq_div_pow]
      norm_num
      try omega

/-- Claim C4: with a winning state whose delays are both positive,
set_led writes trigger, brightness, blink_count, delay_on, delay_off
in exactly that order with exactly those values; with no enabled
source it writes trigger none then brightness 0; and in each case
(including the solid-on case of a winner without positive delays) the
first write returning a negative code ends the call at once with that
code, the later writes never happening. -/
theorem set_led_write_protocol (chan : Chan) (dir : String)
    (battery notifications : led_state) :
    (∀ st : led_state, led_winner battery notifications = some st →
      0 < st.delay_on → 0 < st.delay_off →
      ((0 ≤ chan (dir ++ "/trigger") (WVal.str "notification") →
        0 ≤ chan (dir ++ "/brightness") (WVal.str "255") →
        0 ≤ chan (dir ++ "/blink_count") (WVal.str "1") →
        0 ≤ chan (dir ++ "/delay_on") (WVal.int st.delay_on) →
        0 ≤ chan (dir ++ "/delay_off") (WVal.int st.delay_off) →
        set_led chan dir battery notifications =
          (0,
           [Ev.wr (dir ++ "/trigger") (WVal.str "notification"),
            Ev.wr (dir ++ "/brightness") (WVal.str "255"),
            Ev.wr (dir ++ "/blink_count") (WVal.str "1"),
            Ev.wr (dir ++ "/delay_on") (WVal.int st.delay_on),
            Ev.wr (dir ++ "/delay_off") (WVal.int st.delay_off)])) ∧
       (chan (dir ++ "/trigger") (WVal.str "notification") < 0 →
        set_led chan dir battery notifications =
          (chan (dir ++ "/trigger") (WVal.str "notification"),
           [Ev.wr (dir ++ "/trigger") (WVal.str "notification")])) ∧
       (0 ≤ chan (dir ++ "/trigger") (WVal.str "notification") →
        chan (dir ++ "/brightness") (WVal.str "255") < 0 →
        set_led chan dir battery notifications =
          (chan (dir ++ "/brightness") (WVal.str "255"),
           [Ev.wr (dir ++ "/trigger") (WVal.str "notification"),
            Ev.wr (dir ++ "/brightness") (WVal.str "255")])) ∧
       (0 ≤ chan (dir ++ "/trigger") (WVal.str "notification") →
        0 ≤ chan (dir ++ "/brightness") (WVal.str "255") →
        chan (dir ++ "/blink_count") (WVal.str "1") < 0 →
        set_led chan dir battery notifications =
          (chan (dir ++ "/blink_count") (WVal.str "1"),
           [Ev.wr (dir ++ "/trigger") (WVal.str "notification"),
            Ev.wr (dir ++ "/brightness") (WVal.str "255"),
            Ev.wr (dir ++ "/blink_count") (WVal.str "1")])) ∧
       (0 ≤ chan (dir ++ "/trigger") (WVal.str "notification") →
        0 ≤ chan (dir ++ "/brightness") (WVal.str "255") →
        0 ≤ chan (dir ++ "/blink_count") (WVal.str "1") →
        chan (dir ++ "/delay_on") (WVal.int st.delay_on) < 0 →
        set_led chan dir battery notifications =
          (chan (dir ++ "/delay_on") (WVal.int st.delay_on),
           [Ev.wr (dir ++ "/trigger") (WVal.str "notification"),
            Ev.wr (dir ++ "/brightness") (WVal.str "255"),
            Ev.wr (dir ++ "/blink_count") (WVal.str "1"),
            Ev.wr (dir ++ "/delay_on") (WVal.int st.delay_on)])) ∧
       (0 ≤ chan (dir ++ "/trigger") (WVal.str "notification") →
        0 ≤ chan (dir ++ "/brightness") (WVal.str "255") →
        0 ≤ chan (dir ++ "/blink_count") (WVal.str "1") →
        0 ≤ chan (dir ++ "/delay_on") (WVal.int st.delay_on) →
        chan (dir ++ "/delay_off") (WVal.int st.delay_off) < 0 →
        set_led chan dir battery notifications =
          (chan (dir ++ "/delay_off") (WVal.int st.delay_off),
           [Ev.wr (dir ++ "/trigger") (WVal.str "notification"),
            Ev.wr (dir ++ "/brightness") (WVal.str "255"),
            Ev.wr (dir ++ "/blink_count") (WVal.str "1"),
            Ev.wr (dir ++ "/delay_on") (WVal.int st.delay_on),
            Ev.wr (dir ++ "/delay_off") (WVal.int st.delay_off)])))) ∧
    (led_winner battery notifications = none →
      ((0 ≤ chan (dir ++ "/trigger") (WVal.str "none") →
        0 ≤ chan (dir ++ "/brightness") (WVal.str "0") →
        set_led chan dir battery notifications =
          (0, [Ev.wr (dir ++ "/trigger") (WVal.str "none"),
               Ev.wr (dir ++ "/brightness") (WVal.str "0")])) ∧
       (chan (dir ++ "/trigger") (WVal.str "none") < 0 →
        set_led chan dir battery notifications =
          (chan (dir ++ "/trigger") (WVal.str "none"),
           [Ev.wr (dir ++ "/trigger") (WVal.str "none")])) ∧
       (0 ≤ chan (dir ++ "/trigger") (WVal.str "none") →
        chan (dir ++ "/brightness") (WVal.str "0") < 0 →
        set_led chan dir battery notifications =
          (chan (dir ++ "/brightness") (WVal.str "0"),
           [Ev.wr (dir ++ "/trigger") (WVal.str "none"),
            Ev.wr (dir ++ "/brightness") (WVal.str "0")])))) ∧
    (∀ st : led_state, led_winner battery notifications = some st →
      ¬(0 < st.delay_on ∧ 0 < st.delay_off) →
      ((0 ≤ chan (dir ++ "/trigger") (WVal.str "none") →
        0 ≤ chan (dir ++ "/brightness") (WVal.str "255") →
        set_led chan dir battery notifications =
          (0, [Ev.wr (dir ++ "/trigger") (WVal.str "none"),
               Ev.wr (dir ++ "/brightness") (WVal.str "255")])) ∧
       (chan (dir ++ "/trigger") (WVal.str "none") < 0 →
        set_led chan dir battery notifications =
          (chan (dir ++ "/trigger") (WVal.str "none"),
           [Ev.wr (dir ++ "/trigger") (WVal.str "none")])) ∧
       (0 ≤ chan (dir ++ "/trigger") (WVal.str "none") →
        chan (dir ++ "/brightness") (WVal.str "255") < 0 →
        set_led chan dir battery notifications =
          (chan (dir ++ "/brightness") (WVal.str "255"),
           [Ev.wr (dir ++ "/trigger") (WVal.str "none"),
            Ev.wr (dir ++ "/brightness") (WVal.str "255")])))) := by
  refine ⟨fun st hw hd1 hd2 => ?_, fun hw => ?_, fun st hw hnd => ?_⟩
  · have hcond : (0 : Int) < st.delay_on ∧ (0 : Int) < st.delay_off := ⟨hd1, hd2⟩
    refine ⟨fun h1 h2 h3 h4 h5 => ?_, fun h1 => ?_, fun h1 h2 => ?_,
      fun h1 h2 h3 => ?_, fun h1 h2 h3 h4 => ?_, fun h1 h2 h3 h4 h5 => ?_⟩
    · simp [set_led, hw, set_led_writes, hcond, run_writes, not_lt.mpr h1,
        not_lt.mpr h2, not_lt.mpr h3, not_lt.mpr h4, not_lt.mpr h5]
    · simp [set_led, hw, set_led_writes, hcond, run_writes, h1]
    · simp [set_led, hw, set_led_writes, hcond, run_writes, not_lt.mpr h1, h2]
    · simp [set_led, hw, set_led_writes, hcond, run_writes, not_lt.mpr h1,
        not_lt.mpr h2, h3]
    · simp [set_led, hw, set_led_writes, hcond, run_writes, not_lt.mpr h1,
        not_lt.mpr h2, not_lt.mpr h3, h4]
    · simp [set_led, hw, set_led_writes, hcond, run_writes, not_lt.mpr h1,
        not_lt.mpr h2, not_lt.mpr h3, not_lt.mpr h4, h5]
  · refine ⟨fun h1 h2 => ?_, fun h1 => ?_, fun h1 h2 => ?_⟩
    · simp [set_led, hw, set_led_writes, run_writes, not_lt.mpr h1, not_lt.mpr h2]
    · simp [set_led, hw, set_led_writes, run_writes, h1]
    · simp [set_led, hw, set_led_writes, run_writes, not_lt.mpr h1, h2]
  · refine ⟨fun h1 h2 => ?_, fun h1 => ?_, fun h1 h2 => ?_⟩
    · simp [set_led, hw, set_led_writes, hnd, run_writes, not_lt.mpr h1, not_lt.mpr h2]
    · simp [set_led, hw, set_led_writes, hnd, run_writes, h1]
    · simp [set_led, hw, set_led_writes, hnd, run_writes, not_lt.mpr h1, h2]

/-- Claim C4 witness: a blinking notifications state on a channel
whose writes all succeed produces exactly the five-write sequence. -/
theorem set_led_write_protocol_witness :
    set_led (fun _ _ => (0 : Int)) "d" ⟨false, 0, 0⟩ ⟨true, 1, 2⟩ =
      (0,
       [Ev.wr ("d" ++ "/trigger") (WVal.str "notification"),
        Ev.wr ("d" ++ "/brightness") (WVal.str "255"),
        Ev.wr ("d" ++ "/blink_count") (WVal.str "1"),
        Ev.wr ("d" ++ "/delay_on") (WVal.int 1),
        Ev.wr ("d" ++ "/delay_off") (WVal.int 2)]) :=
  (((set_led_write_protocol (fun _ _ => (0 : Int)) "d" ⟨false, 0, 0⟩
      ⟨true, 1, 2⟩).1 ⟨true, 1, 2⟩ (by decide) (by decide) (by decide)).1
    (by decide) (by decide) (by decide) (by decide) (by decide))

/-- Claim C5 counterexample: a TIMED request with the non-negative
timings flashOnMS = 1, flashOffMS = 0 yields a stored red record whose
delays are mixed (one positive, one zero), so the invariant fails as
stated. -/
theorem comp_led_states_mixed_delay_cex :
    (0 : Int) ≤ 1 ∧ (0 : Int) ≤ 0 ∧
    ¬(((comp_led_states ⟨0xFF0000, 1, 1, 0⟩).1.delay_on = 0 ∧
       (comp_led_states ⟨0xFF0000, 1, 1, 0⟩).1.delay_off = 0) ∨
      (0 < (comp_led_states ⟨0xFF0000, 1, 1, 0⟩).1.delay_on ∧
       0 < (comp_led_states ⟨0xFF0000, 1, 1, 0⟩).1.delay_off)) := by
  decide

/-- Claim C5 amended: when the timings of the request are themselves
both zero or both positive, every recomputed record has its two delays
both zero or both positive (for TIMED they are the timings, for every
other mode they are both zero). -/
theorem led_delay_invariant (state : light_state_t)
    (h : (state.flashOnMS = 0 ∧ state.flashOffMS = 0) ∨
         (0 < state.flashOnMS ∧ 0 < state.flashOffMS)) :
    (((comp_led_states state).1.delay_on = 0 ∧
      (comp_led_states state).1.delay_off = 0) ∨
     (0 < (comp_led_states state).1.delay_on ∧
      0 < (comp_led_states state).1.delay_off)) ∧
    (((comp_led_states state).2.delay_on = 0 ∧
      (comp_led_states state).2.delay_off = 0) ∨
     (0 < (comp_led_states state).2.delay_on ∧
      0 < (comp_led_states state).2.delay_off)) := by
  unfold comp_led_states
  by_cases hm : state.flashMode = LIGHT_FLASH_TIMED <;> (simp [hm]; try tauto)

/-- Claim C5 witness: a TIMED request with both timings positive keeps
both stored delay pairs positive. -/
theorem led_delay_invariant_witness :
    (((comp_led_states ⟨0x0000FF, 1, 5, 7⟩).1.delay_on = 0 ∧
      (comp_led_states ⟨0x0000FF, 1, 5, 7⟩).1.delay_off = 0) ∨
     (0 < (comp_led_states ⟨0x0000FF, 1, 5, 7⟩).1.delay_on ∧
      0 < (comp_led_states ⟨0x0000FF, 1, 5, 7⟩).1.delay_off)) ∧
    (((comp_led_states ⟨0x0000FF, 1, 5, 7⟩).2.delay_on = 0 ∧
      (comp_led_states ⟨0x0000FF, 1, 5, 7⟩).2.delay_off = 0) ∨
     (0 < (comp_led_states ⟨0x0000FF, 1, 5, 7⟩).2.delay_on ∧
      0 < (comp_led_states ⟨0x0000FF, 1, 5, 7⟩).2.delay_off)) :=
  led_delay_invariant ⟨0x0000FF, 1, 5, 7⟩ (Or.inr ⟨by decide, by decide⟩)

/-- Claim C6: in both the battery and the notifications handler, a
negative result of the red-LED arbitration is returned as the result
of the whole call and the blue LED is never touched (the trace holds
only the red-LED writes); a non-negative red result makes the blue-LED
arbitration result the return value of the call. -/
theorem handler_short_circuit (chan : Chan) (g : LedStore) (state : light_state_t) :
    (((set_led chan RED_LED_DIR (comp_led_states state).1 g.notifications_red).1 < 0 →
      set_light_battery chan g state =
        ((set_led chan RED_LED_DIR (comp_led_states state).1 g.notifications_red).1,
         { g with battery_red := (comp_led_states state).1,
                  battery_blue := (comp_led_states state).2 },
         (Ev.lock ::
           (set_led chan RED_LED_DIR (comp_led_states state).1 g.notifications_red).2)
           ++ [Ev.unlock])) ∧
     (0 ≤ (set_led chan RED_LED_DIR (comp_led_states state).1 g.notifications_red).1 →
      (set_light_battery chan g state).1 =
        (set_led chan BLUE_LED_DIR (comp_led_states state).2 g.notifications_blue).1)) ∧
    (((set_led chan RED_LED_DIR g.battery_red (comp_led_states state).1).1 < 0 →
      set_light_notifications chan g state =
        ((set_led chan RED_LED_DIR g.battery_red (comp_led_states state).1).1,
         { g with notifications_red := (comp_led_states state).1,
                  notifications_blue := (comp_led_states state).2 },
         (Ev.lock ::
           (set_led chan RED_LED_DIR g.battery_red (comp_led_states state).1).2)
           ++ [Ev.unlock])) ∧
     (0 ≤ (set_led chan RED_LED_DIR g.battery_red (comp_led_states state).1).1 →
      (set_light_notifications chan g state).1 =
        (set_led chan BLUE_LED_DIR g.battery_blue (comp_led_states state).2).1)) := by
  refine ⟨⟨fun h => ?_, fun h => ?_⟩, fun h => ?_, fun h => ?_⟩
  · simp only [set_light_battery]
    rw [if_neg (not_le.mpr h)]
  · simp only [set_light_battery]
    rw [if_pos h]
  · simp only [set_light_notifications]
    rw [if_neg (not_le.mpr h)]
  · simp only [set_light_notifications]
    rw [if_pos h]

/-- Claim C6 witness: with every write failing and only the battery
red source enabled, the battery call returns the failing red write
code and its trace holds the single red trigger write followed by no
blue write at all. -/
theorem handler_short_circuit_witness :
    set_light_battery (fun _ _ => (-1 : Int))
      ⟨⟨false, 0, 0⟩, ⟨false, 0, 0⟩, ⟨false, 0, 0⟩, ⟨false, 0, 0⟩⟩
      ⟨0xFF0000, 0, 0, 0⟩ =
      (-1,
       ⟨⟨true, 0, 0⟩, ⟨false, 0, 0⟩, ⟨false, 0, 0⟩, ⟨false, 0, 0⟩⟩,
       [Ev.lock, Ev.wr (RED_LED_DIR ++ "/trigger") (WVal.str "none"), Ev.unlock]) := by
  exact (handler_short_circuit (fun _ _ => (-1 : Int))
    ⟨⟨false, 0, 0⟩, ⟨false, 0, 0⟩, ⟨false, 0, 0⟩, ⟨false, 0, 0⟩⟩
    ⟨0xFF0000, 0, 0, 0⟩).1.1 (by decide)

theorem brightness_path_ne_keyboard_path : BRIGHTNESS_FILE ≠ KEYBOARD_FILE := by
  decide

theorem brightness_path_ne_buttons_path : BRIGHTNESS_FILE ≠ BUTTONS_FILE := by
  decide

/-- Claim C7: the buttons handler returns exactly the result of its
own write of the 0/1 touch flag to the buttons control; its trace
starts with the keyboard handler invocation; the voltage control is
written with the luma brightness precisely when that brightness is
positive; and the returned value only depends on what the channel
answers for the buttons write, so failures of the keyboard or the
voltage write never change it. -/
theorem buttons_write_policy (chan : Chan) (g : LedStore) (state : light_state_t) :
    (set_light_buttons chan g state).1 =
      chan BUTTONS_FILE (WVal.int (if state.color % 16777216 ≠ 0 then 1 else 0)) ∧
    (∃ rest, (set_light_buttons chan g state).2.2 =
      (set_light_keyboard chan g state).2.2 ++ rest) ∧
    (0 < rgb_to_brightness state →
      Ev.wr BRIGHTNESS_FILE (WVal.int (rgb_to_brightness state)) ∈
        (set_light_buttons chan g state).2.2) ∧
    (rgb_to_brightness state = 0 →
      ∀ v : WVal, Ev.wr BRIGHTNESS_FILE v ∉ (set_light_buttons chan g state).2.2) ∧
    (∀ chan2 : Chan,
      chan2 BUTTONS_FILE (WVal.int (if state.color % 16777216 ≠ 0 then 1 else 0)) =
        chan BUTTONS_FILE (WVal.int (if state.color % 16777216 ≠ 0 then 1 else 0)) →
      (set_light_buttons chan2 g state).1 = (set_light_buttons chan g state).1) := by
  refine ⟨rfl, ⟨_, rfl⟩, fun h => ?_, fun h0 v => ?_, fun chan2 heq => ?_⟩
  · simp [set_light_buttons, set_light_keyboard, h]
  · simp [set_light_buttons, set_light_keyboard, h0,
      brightness_path_ne_keyboard_path, brightness_path_ne_buttons_path]
  · simpa [set_light_buttons] using heq

/-- Claim C7 witness: white color on an all-success channel; the luma
brightness 255 is positive so the voltage write appears in the trace. -/
theorem buttons_write_policy_witness :
    Ev.wr BRIGHTNESS_FILE (WVal.int 255) ∈
      (set_light_buttons (fun _ _ => (0 : Int))
        ⟨⟨false, 0, 0⟩, ⟨false, 0, 0⟩, ⟨false, 0, 0⟩, ⟨false, 0, 0⟩⟩
        ⟨0xFFFFFF, 0, 0, 0⟩).2.2 :=
  (buttons_write_policy (fun _ _ => (0 : Int))
    ⟨⟨false, 0, 0⟩, ⟨false, 0, 0⟩, ⟨false, 0, 0⟩, ⟨false, 0, 0⟩⟩
    ⟨0xFFFFFF, 0, 0, 0⟩).2.2.1 (by decide)

/-- Claim C8: the keyboard handler performs the single write of
control code 1 to the keyboard control when any of the low 3 color
bytes is non-zero and of control code 2 otherwise, and its return
value is the result of that write. -/
theorem keyboard_control_code (chan : Chan) (g : LedStore) (state : light_state_t) :
    (state.color % 16777216 ≠ 0 →
      set_light_keyboard chan g state =
        (chan KEYBOARD_FILE (WVal.int 1), g,
         [Ev.lock, Ev.wr KEYBOARD_FILE (WVal.int 1), Ev.unlock])) ∧
    (state.color % 16777216 = 0 →
      set_light_keyboard chan g state =
        (chan KEYBOARD_FILE (WVal.int 2), g,
         [Ev.lock, Ev.wr KEYBOARD_FILE (WVal.int 2), Ev.unlock])) := by
  constructor <;> intro h <;> simp [set_light_keyboard, h]

/-- Claim C8 witness: the two scenario colors of the spec, 0x010000
gives control code 1 and 0x000000 gives control code 2. -/
theorem keyboard_control_code_witness :
    set_light_keyboard (fun _ _ => (0 : Int))
      ⟨⟨false, 0, 0⟩, ⟨false, 0, 0⟩, ⟨false, 0, 0⟩, ⟨false, 0, 0⟩⟩
      ⟨0x010000, 0, 0, 0⟩ =
      (0, ⟨⟨false, 0, 0⟩, ⟨false, 0, 0⟩, ⟨false, 0, 0⟩, ⟨false, 0, 0⟩⟩,
       [Ev.lock, Ev.wr KEYBOARD_FILE (WVal.int 1), Ev.unlock]) :=
  (keyboard_control_code (fun _ _ => (0 : Int))
    ⟨⟨false, 0, 0⟩, ⟨false, 0, 0⟩, ⟨false, 0, 0⟩, ⟨false, 0, 0⟩⟩
    ⟨0x010000, 0, 0, 0⟩).1 (by decide)

/-- Claim C9 counterexample: a concrete buttons call (color 0, all
writes succeeding) produces the trace lock, keyboard write, unlock,
lock, buttons write, unlock — its device writes are not covered by one
continuous lock hold, refuting the claim for the buttons handler. -/
theorem buttons_multi_lock_cex :
    singleLockSpan
      ((set_light_buttons (fun _ _ => (0 : Int))
        ⟨⟨false, 0, 0⟩, ⟨false, 0, 0⟩, ⟨false, 0, 0⟩, ⟨false, 0, 0⟩⟩
        ⟨0, 0, 0, 0⟩).2.2) = false := by
  decide

/-- Claim C9 amended: the battery, notifications, backlight and
keyboard handlers hold the lock continuously across all of the device
writes of the call and release it on every exit path (their whole
trace is one lock, writes only, one unlock — also on the error paths,
which only shorten the write list).  The buttons handler does not have
one continuous hold: it locks and unlocks around each sub-write
separately, but its lock use is still well nested, each of its writes
happens under the lock, and the lock is free again when it returns. -/
theorem lock_discipline (chan : Chan) (g : LedStore) (state : light_state_t) :
    singleLockSpan (set_light_battery chan g state).2.2 = true ∧
    singleLockSpan (set_light_notifications chan g state).2.2 = true ∧
    singleLockSpan (set_light_backlight chan g state).2.2 = true ∧
    singleLockSpan (set_light_keyboard chan g state).2.2 = true ∧
    lockedWrites (set_light_buttons chan g state).2.2 false = true := by
  refine ⟨?_, ?_, ?_, ?_, ?_⟩
  · simp only [set_light_battery]
    split
    · refine singleLockSpan_wrap _ (fun e he => ?_)
      rcases List.mem_append.mp he with h | h
      · exact set_led_trace_writes _ _ _ _ e h
      · exact set_led_trace_writes _ _ _ _ e h
    · exact singleLockSpan_wrap _ (set_led_trace_writes _ _ _ _)
  · simp only [set_light_notifications]
    split
    · refine singleLockSpan_wrap _ (fun e he => ?_)
      rcases List.mem_append.mp he with h | h
      · exact set_led_trace_writes _ _ _ _ e h
      · exact set_led_trace_writes _ _ _ _ e h
    · exact singleLockSpan_wrap _ (set_led_trace_writes _ _ _ _)
  · rfl
  · rfl
  · simp only [set_light_buttons, set_light_keyboard]
    by_cases hb : 0 < rgb_to_brightness state <;>
      simp [hb, lockedWrites]

/-- Claim C10: a battery call replaces exactly its own two records and
leaves both notifications records untouched; a notifications call does
the reverse; backlight, keyboard and buttons calls leave the whole
store untouched. -/
theorem handlers_frame (chan : Chan) (g : LedStore) (state : light_state_t) :
    ((set_light_battery chan g state).2.1.notifications_red = g.notifications_red ∧
     (set_light_battery chan g state).2.1.notifications_blue = g.notifications_blue ∧
     (set_light_battery chan g state).2.1.battery_red = (comp_led_states state).1 ∧
     (set_light_battery chan g state).2.1.battery_blue = (comp_led_states state).2) ∧
    ((set_light_notifications chan g state).2.1.battery_red = g.battery_red ∧
     (set_light_notifications chan g state).2.1.battery_blue = g.battery_blue ∧
     (set_light_notifications chan g state).2.1.notifications_red =
       (comp_led_states state).1 ∧
     (set_light_notifications chan g state).2.1.notifications_blue =
       (comp_led_states state).2) ∧
    (set_light_backlight chan g state).2.1 = g ∧
    (set_light_keyboard chan g state).2.1 = g ∧
    (set_light_buttons chan g state).2.1 = g := by
  refine ⟨?_, ?_, rfl, rfl, rfl⟩
  · simp only [set_light_battery]
    split <;> exact ⟨rfl, rfl, rfl, rfl⟩
  · simp only [set_light_notifications]
    split <;> exact ⟨rfl, rfl, rfl, rfl⟩
